import Mathlib

/-!
Verification of the error-handling core of a JSON-RPC library
(`src/error.rs`): the `StandardError` catalog, the `Error` and
`Response` value types, and the two operations `standard_error` and
`result_to_response`, embedded shallowly as total Lean functions.
-/

namespace RustJsonRpc

/-- Model of the external `serialize::json::Json` value type used for the
request identifier, success payloads and auxiliary error data.  The
library treats these values as opaque, so only the constructors of the
external crate's enum are reproduced (floating-point numbers are
represented by their bit pattern as a natural number, since no operation
of this core inspects them). -/
inductive Json where
  | null : Json
  | boolean : Bool → Json
  | i64 : Int → Json
  | u64 : Nat → Json
  | f64bits : Nat → Json
  | string : String → Json
  | list : List Json → Json
  | object : List (String × Json) → Json

/-- `StandardError` from `src/error.rs`: the closed set of standard
JSON-RPC error conditions. -/
inductive StandardError where
  | ParseError : StandardError
  | InvalidRequest : StandardError
  | MethodNotFound : StandardError
  | InvalidParams : StandardError
  | InternalError : StandardError
deriving DecidableEq

/-- `Error` from `src/error.rs`: a JSON-RPC error object with an integer
code, a message string and optional auxiliary data. -/
structure Error where
  code : Int
  message : String
  data : Option Json

/-- `Response` as constructed by `result_to_response` in `src/error.rs`:
optional result, optional error, and the echoed request id. -/
structure Response where
  result : Option Json
  error : Option Error
  id : Json

/-- `JsonResult<T>` is `Result<T, Error>` in the library. -/
def JsonResult (T : Type) : Type := Except Error T

/-- `standard_error` from `src/error.rs`, lines 62-90: dispatch on the
`StandardError` variant to the fixed (code, message) pair, attaching the
caller-supplied `data` verbatim. -/
def standard_error (code : StandardError) (data : Option Json) : Error :=
  match code with
  | .ParseError => Error.mk (-32700) "Parse error" data
  | .InvalidRequest => Error.mk (-32600) "Invalid Request" data
  | .MethodNotFound => Error.mk (-32601) "Method not found" data
  | .InvalidParams => Error.mk (-32602) "Invalid params" data
  | .InternalError => Error.mk (-32603) "Internal error" data

/-- `result_to_response` from `src/error.rs`, lines 93-98: convert a
`Result` outcome plus a request id into a `Response`. -/
def result_to_response (result : JsonResult Json) (id : Json) : Response :=
  match result with
  | .ok data => Response.mk (some data) none id
  | .error err => Response.mk none (some err) id

/-- C1: For every outcome and every id, the Response returned by
`result_to_response` has exactly one of its result/error fields present:
`result` is `some` if and only if `error` is `none`. -/
theorem result_to_response_exclusive (result : JsonResult Json) (id : Json) :
    (result_to_response result id).result.isSome
      = !(result_to_response result id).error.isSome := by
  cases result <;> rfl

/-- C3: `result_to_response` maps `Ok payload` to a Response carrying the
payload verbatim as `result` with no error, and `Err e` to a Response
carrying `e` verbatim as `error` with no result; the id is attached in
both cases. -/
theorem result_to_response_eq (payload : Json) (e : Error) (id : Json) :
    result_to_response (.ok payload) id = Response.mk (some payload) none id
      ∧ result_to_response (.error e) id = Response.mk none (some e) id :=
  ⟨rfl, rfl⟩

/-- C4: for every id value and every outcome, the Response returned by
`result_to_response` satisfies `response.id = id`: the id is passed
through unchanged. -/
theorem result_to_response_id (result : JsonResult Json) (id : Json) :
    (result_to_response result id).id = id := by
  cases result <;> rfl

/-- C2: for each of the five `StandardError` variants and every data
argument, `standard_error` returns exactly the canonical (code, message)
pair of the table, independent of `data`. -/
theorem standard_error_table (d : Option Json) :
    (standard_error .ParseError d).code = -32700
      ∧ (standard_error .ParseError d).message = "Parse error"
      ∧ (standard_error .InvalidRequest d).code = -32600
      ∧ (standard_error .InvalidRequest d).message = "Invalid Request"
      ∧ (standard_error .MethodNotFound d).code = -32601
      ∧ (standard_error .MethodNotFound d).message = "Method not found"
      ∧ (standard_error .InvalidParams d).code = -32602
      ∧ (standard_error .InvalidParams d).message = "Invalid params"
      ∧ (standard_error .InternalError d).code = -32603
      ∧ (standard_error .InternalError d).message = "Internal error" :=
  ⟨rfl, rfl, rfl, rfl, rfl, rfl, rfl, rfl, rfl, rfl⟩

/-- C5: for every `StandardError` kind and every data argument,
`(standard_error kind data).data` equals the input data exactly. -/
theorem standard_error_data (k : StandardError) (d : Option Json) :
    (standard_error k d).data = d := by
  cases k <;> rfl

/-- C6: both operations are total over their input domains: for every
input they return a value (witnessed here by an explicit output for each
input, with no failure branch of their own). -/
theorem operations_total :
    (∀ (k : StandardError) (d : Option Json),
        ∃ e : Error, standard_error k d = e)
      ∧ (∀ (r : JsonResult Json) (id : Json),
          ∃ resp : Response, result_to_response r id = resp) :=
  ⟨fun k d => ⟨standard_error k d, rfl⟩,
   fun r id => ⟨result_to_response r id, rfl⟩⟩

/-- C7: both operations are deterministic pure functions: two calls with
equal inputs give equal outputs (the output depends only on the
arguments). -/
theorem operations_deterministic (k₁ k₂ : StandardError)
    (d₁ d₂ : Option Json) (r₁ r₂ : JsonResult Json) (id₁ id₂ : Json)
    (hk : k₁ = k₂) (hd : d₁ = d₂) (hr : r₁ = r₂) (hid : id₁ = id₂) :
    standard_error k₁ d₁ = standard_error k₂ d₂
      ∧ result_to_response r₁ id₁ = result_to_response r₂ id₂ := by
  subst hk; subst hd; subst hr; subst hid; exact ⟨rfl, rfl⟩

/-- Witness for C7: the determinism theorem applied at concrete equal
inputs. -/
theorem operations_deterministic_witness :
    standard_error .ParseError none = standard_error .ParseError none
      ∧ result_to_response (.ok .null) (.u64 1)
          = result_to_response (.ok .null) (.u64 1) :=
  operations_deterministic .ParseError .ParseError none none
    (.ok .null) (.ok .null) (.u64 1) (.u64 1) rfl rfl rfl rfl

/-- C8: for every variant and every data argument, the code produced by
`standard_error` lies within the JSON-RPC reserved range
[-32768, -32000] (in particular it is negative). -/
theorem standard_error_code_range (k : StandardError) (d : Option Json) :
    -32768 ≤ (standard_error k d).code
      ∧ (standard_error k d).code ≤ -32000
      ∧ (standard_error k d).code < 0 := by
  cases k <;> refine ⟨?_, ?_, ?_⟩ <;> norm_num [standard_error]

/-- C9: the variant-to-code mapping of `standard_error` is injective: two
distinct variants yield distinct codes (and distinct messages), for any
data arguments. -/
theorem standard_error_injective (k₁ k₂ : StandardError)
    (d₁ d₂ : Option Json) (h : k₁ ≠ k₂) :
    (standard_error k₁ d₁).code ≠ (standard_error k₂ d₂).code
      ∧ (standard_error k₁ d₁).message ≠ (standard_error k₂ d₂).message := by
  cases k₁ <;> cases k₂ <;>
    first
      | exact absurd rfl h
      | (constructor <;> simp [standard_error])

/-- Witness for C9: the injectivity theorem applied at two concrete
distinct variants. -/
theorem standard_error_injective_witness :
    (standard_error .ParseError none).code
        ≠ (standard_error .InvalidRequest none).code
      ∧ (standard_error .ParseError none).message
          ≠ (standard_error .InvalidRequest none).message :=
  standard_error_injective .ParseError .InvalidRequest none none
    (by decide)

/-- C10: for every variant and every data argument, the message of the
Error returned by `standard_error` is a non-empty string. -/
theorem standard_error_message_nonempty (k : StandardError)
    (d : Option Json) : (standard_error k d).message ≠ "" := by
  cases k <;> simp [standard_error]

end RustJsonRpc
